import Mathlib

/-!
Verification of the SPS30 Raspberry-Pi driver (sps30lib.cpp / sps30lib.h).

The development shallowly embeds the protocol engine of the driver:
machine bytes and words are `Nat` with explicit truncation (`% 256`,
`&&& 0xFF`), fallible operations return error codes or `Except`, the
I2C transport is an oracle (explicit boolean / optional results passed
in), and bus activity is recorded as an explicit event trace.
-/

set_option maxRecDepth 100000

namespace SPS30

/-- Error codes from sps30lib.h. -/
def ERR_OK : Nat := 0x00

def ERR_DATALENGTH : Nat := 0x01

def ERR_UNKNOWNCMD : Nat := 0x02

def ERR_ACCESSRIGHT : Nat := 0x03

def ERR_PARAMETER : Nat := 0x04

def ERR_OUTOFRANGE : Nat := 0x28

def ERR_CMDSTATE : Nat := 0x43

def ERR_TIMEOUT : Nat := 0x50

def ERR_PROTOCOL : Nat := 0x51

def ERR_FIRMWARE : Nat := 0x88

/-- I2C command opcodes from sps30lib.h. -/
def I2C_START_MEASUREMENT : Nat := 0x0010

def I2C_STOP_MEASUREMENT : Nat := 0x0104

def I2C_READ_DATA_RDY_FLAG : Nat := 0x0202

def I2C_READ_MEASURED_VALUE : Nat := 0x0300

def I2C_SLEEP : Nat := 0x1001

def I2C_WAKEUP : Nat := 0x1002

def I2C_START_FAN_CLEANING : Nat := 0x5607

def I2C_AUTO_CLEANING_INTERVAL : Nat := 0x8004

def I2C_SET_AUTO_CLEANING_INTERVAL : Nat := 0x8005

def I2C_READ_PRODUCT_TYPE : Nat := 0xD002

def I2C_READ_SERIAL_NUMBER : Nat := 0xD033

def I2C_READ_VERSION : Nat := 0xD100

def I2C_READ_STATUS_REGISTER : Nat := 0xD206

def I2C_RESET : Nat := 0xD304

/-- Measurement-mode byte for start measurement (float mode). -/
def START_MEASURE_FLOAT : Nat := 0x03

/-- Receive buffer size from sps30lib.h. -/
def MAXBUF : Nat := 100

/-- Compile-time switch INCLUDE_FWCHECK, set to 1 in sps30lib.h. -/
def INCLUDE_FWCHECK : Bool := true

/-- One step of the inner bit loop of SPS30::I2C_calc_CRC: the uint8
crc is shifted left and, when its top bit was set, xored with the
polynomial 0x31; assignment to the uint8 truncates modulo 256. -/
def crcStep (c : Nat) : Nat :=
  if c &&& 0x80 ≠ 0 then ((c <<< 1) ^^^ 0x31) % 256 else (c <<< 1) % 256

/-- Iterate `crcStep` (the `for(bit = 8; bit > 0; --bit)` loop). -/
def crcN : Nat → Nat → Nat
  | 0, c => c
  | n + 1, c => crcN n (crcStep c)

/-- SPS30::I2C_calc_CRC over the two data bytes `d0`, `d1`: start from
0xFF, xor in each byte and run the 8-bit loop. -/
def I2C_calc_CRC (d0 d1 : Nat) : Nat :=
  crcN 8 (crcN 8 (0xFF ^^^ d0) ^^^ d1)

/-- Sanity vector from the SPS30 datasheet: CRC(0xBE, 0xEF) = 0x92. -/
theorem calc_CRC_datasheet_vector : I2C_calc_CRC 0xBE 0xEF = 0x92 := by decide

theorem crcStep_lt (c : Nat) : crcStep c < 256 := by
  unfold crcStep
  split <;> exact Nat.mod_lt _ (by norm_num)

theorem crcN_lt : ∀ n c, c < 256 → crcN n c < 256
  | 0, _, h => h
  | n + 1, c, _ => crcN_lt n _ (crcStep_lt c)

theorem crcN8_lt (c : Nat) : crcN 8 c < 256 :=
  crcN_lt 7 _ (crcStep_lt c)

theorem xor_lt_256 {x y : Nat} (hx : x < 256) (hy : y < 256) : x ^^^ y < 256 :=
  Nat.xor_lt_two_pow (n := 8) hx hy

/-- Explicit inverse of the crc bit step on bytes: the polynomial 0x31
is odd, so the parity of the result reveals whether the top bit was
set before the shift. -/
def crcStepInv (r : Nat) : Nat :=
  if r % 2 = 1 then (r ^^^ 0x31) / 2 + 128 else r / 2

theorem crcStepInv_crcStep : ∀ c < 256, crcStepInv (crcStep c) = c := by decide

theorem crcStep_injOn {a b : Nat} (ha : a < 256) (hb : b < 256)
    (h : crcStep a = crcStep b) : a = b := by
  have := congrArg crcStepInv h
  rwa [crcStepInv_crcStep a ha, crcStepInv_crcStep b hb] at this

theorem crcN_injOn : ∀ n {a b : Nat}, a < 256 → b < 256 →
    crcN n a = crcN n b → a = b
  | 0, _, _, _, _, h => h
  | n + 1, a, b, ha, hb, h =>
    crcStep_injOn ha hb
      (crcN_injOn n (crcStep_lt a) (crcStep_lt b) h)

/-- Changing the low data byte (xor with a nonzero byte) changes the
CRC computed by SPS30::I2C_calc_CRC. -/
theorem calc_CRC_flip_lo {d0 d1 e : Nat} (h1 : d1 < 256) (he : e < 256)
    (he0 : e ≠ 0) : I2C_calc_CRC d0 (d1 ^^^ e) ≠ I2C_calc_CRC d0 d1 := by
  intro h
  unfold I2C_calc_CRC at h
  rw [← Nat.xor_assoc] at h
  have hX : crcN 8 (0xFF ^^^ d0) < 256 := crcN8_lt _
  have h2 := crcN_injOn 8
    (xor_lt_256 (xor_lt_256 hX h1) he) (xor_lt_256 hX h1) h
  exact he0 (by
    have := Nat.xor_right_inj.mp
      (show crcN 8 (0xFF ^^^ d0) ^^^ (d1 ^^^ e) =
            crcN 8 (0xFF ^^^ d0) ^^^ d1 from by
        rw [← Nat.xor_assoc]; exact h2)
    have h3 : d1 ^^^ e = d1 ^^^ 0 := by rw [Nat.xor_zero]; exact this
    exact Nat.xor_right_inj.mp h3)

/-- Changing the high data byte (xor with a nonzero byte) changes the
CRC computed by SPS30::I2C_calc_CRC. -/
theorem calc_CRC_flip_hi {d0 d1 e : Nat} (h0 : d0 < 256) (h1 : d1 < 256)
    (he : e < 256) (he0 : e ≠ 0) :
    I2C_calc_CRC (d0 ^^^ e) d1 ≠ I2C_calc_CRC d0 d1 := by
  intro h
  unfold I2C_calc_CRC at h
  have hFF : (0xFF : Nat) ^^^ d0 < 256 := xor_lt_256 (by norm_num) h0
  have hX : crcN 8 (0xFF ^^^ (d0 ^^^ e)) < 256 := crcN8_lt _
  have hY : crcN 8 (0xFF ^^^ d0) < 256 := crcN8_lt _
  have h2 := crcN_injOn 8 (xor_lt_256 hX h1) (xor_lt_256 hY h1) h
  have h3 : crcN 8 (0xFF ^^^ (d0 ^^^ e)) = crcN 8 (0xFF ^^^ d0) :=
    Nat.xor_left_inj.mp h2
  rw [← Nat.xor_assoc] at h3
  have h4 := crcN_injOn 8 (xor_lt_256 hFF he) hFF h3
  exact he0 (by
    have h5 : (0xFF ^^^ d0) ^^^ e = (0xFF ^^^ d0) ^^^ 0 := by
      rw [Nat.xor_zero]; exact h4
    exact Nat.xor_right_inj.mp h5)

/-- High byte extraction as written in I2C_fill_buffer: `w >> 8 & 0xff`. -/
def hiByte (w : Nat) : Nat := w >>> 8 &&& 0xFF

/-- Low byte extraction as written in I2C_fill_buffer: `w & 0xff`. -/
def loByte (w : Nat) : Nat := w &&& 0xFF

/-- A 16-bit word as transmitted on the wire: two big-endian data bytes
followed by their CRC, exactly as every CRC-protected unit is built in
I2C_fill_buffer. -/
def encodeTriplet (w : Nat) : List Nat :=
  [hiByte w, loByte w, I2C_calc_CRC (hiByte w) (loByte w)]

/-- One-triplet decode: the CRC comparison is the one performed in
I2C_ReadToBuffer (`data[2] != I2C_calc_CRC(&data[0])`), and the word is
reassembled big-endian as byte_to_U32 does for consecutive bytes. -/
def decodeTriplet (t : List Nat) : Option Nat :=
  match t with
  | [d0, d1, c] =>
    if c = I2C_calc_CRC d0 d1 then some (d0 * 256 + d1) else none
  | _ => none

/-- Flip bit `p` (0..23) of a transmitted triplet: bits 0-7 land in the
first data byte, 8-15 in the second, 16-23 in the CRC byte. -/
def flipTriplet (t : List Nat) (p : Nat) : List Nat :=
  match t with
  | [b0, b1, b2] =>
    if p < 8 then [b0 ^^^ (1 <<< p), b1, b2]
    else if p < 16 then [b0, b1 ^^^ (1 <<< (p - 8)), b2]
    else [b0, b1, b2 ^^^ (1 <<< (p - 16))]
  | other => other

theorem hiByte_lt (w : Nat) : hiByte w < 256 :=
  Nat.lt_succ_of_le (Nat.and_le_right)

theorem loByte_lt (w : Nat) : loByte w < 256 :=
  Nat.lt_succ_of_le (Nat.and_le_right)

theorem shiftLeft_one_lt {p : Nat} (hp : p < 8) : 1 <<< p < 256 := by
  rw [Nat.one_shiftLeft]
  calc 2 ^ p < 2 ^ 8 := Nat.pow_lt_pow_right (by norm_num) hp
  _ = 256 := by norm_num

theorem shiftLeft_one_ne_zero (p : Nat) : 1 <<< p ≠ 0 := by
  rw [Nat.one_shiftLeft]
  have : 0 < 2 ^ p := Nat.pos_pow_of_pos p (by norm_num)
  omega

/-- C2: the checksum is CRC-8 (poly 0x31, init 0xFF, MSB-first, over
exactly 2 bytes); decoding the triplet built from any 16-bit word `w`
verifies and yields `w` back, and flipping any single bit of the
transmitted triplet makes the CRC verification fail. -/
theorem C2_crc_roundtrip_and_bitflip (w p : Nat) (hw : w < 65536) (hp : p < 24) :
    decodeTriplet (encodeTriplet w) = some w ∧
    decodeTriplet (flipTriplet (encodeTriplet w) p) = none := by
  constructor
  · have hb : hiByte w * 256 + loByte w = w := by
      unfold hiByte loByte
      have h8 : w >>> 8 = w / 2 ^ 8 := Nat.shiftRight_eq_div_pow w 8
      have ha : w / 2 ^ 8 &&& 0xFF = w / 2 ^ 8 % 2 ^ 8 := by
        have := Nat.and_pow_two_sub_one_eq_mod (w / 2 ^ 8) 8
        norm_num at this ⊢
        exact this
      have hb2 : w &&& 0xFF = w % 2 ^ 8 := by
        have := Nat.and_pow_two_sub_one_eq_mod w 8
        norm_num at this ⊢
        exact this
      rw [h8, ha, hb2]
      norm_num
      omega
    simp [decodeTriplet, encodeTriplet, hb]
  · rcases Nat.lt_or_ge p 8 with h8 | h8
    · simp only [encodeTriplet, flipTriplet, if_pos h8, decodeTriplet]
      rw [if_neg]
      intro h
      exact calc_CRC_flip_hi (hiByte_lt w) (loByte_lt w)
        (shiftLeft_one_lt h8) (shiftLeft_one_ne_zero p) h.symm
    · rcases Nat.lt_or_ge p 16 with h16 | h16
      · simp only [encodeTriplet, flipTriplet, if_neg (Nat.not_lt.mpr h8),
          if_pos h16, decodeTriplet]
        rw [if_neg]
        intro h
        exact calc_CRC_flip_lo (loByte_lt w)
          (shiftLeft_one_lt (by omega)) (shiftLeft_one_ne_zero (p - 8)) h.symm
      · simp only [encodeTriplet, flipTriplet, if_neg (Nat.not_lt.mpr h8),
          if_neg (Nat.not_lt.mpr h16), decodeTriplet]
        rw [if_neg]
        intro h
        have h5 : I2C_calc_CRC (hiByte w) (loByte w) ^^^ (1 <<< (p - 16)) =
            I2C_calc_CRC (hiByte w) (loByte w) ^^^ 0 := by
          rw [Nat.xor_zero]; exact h
        exact shiftLeft_one_ne_zero (p - 16) (Nat.xor_right_inj.mp h5)

/-- Witness for C2 at a concrete word and bit position. -/
theorem C2_witness :
    (0xBEEF : Nat) < 65536 ∧ (5 : Nat) < 24 ∧
    (decodeTriplet (encodeTriplet 0xBEEF) = some 0xBEEF ∧
     decodeTriplet (flipTriplet (encodeTriplet 0xBEEF) 5) = none) :=
  ⟨by norm_num, by norm_num,
   C2_crc_roundtrip_and_bitflip 0xBEEF 5 (by norm_num) (by norm_num)⟩

/-- SPS30::I2C_fill_buffer: the outgoing frame for a command. The two
opcode bytes are written first; for start-measurement a mode byte, a
dummy byte and their CRC follow; for set-auto-clean-interval the index
`i` is reset to 0 so the frame is rebuilt from scratch: the read
sub-opcode 0x8004 (I2C_AUTO_CLEANING_INTERVAL) overwrites the 0x8005
opcode bytes, followed by the two interval words each with a CRC. -/
def I2C_fill_buffer (cmd : Nat) (interval : Nat) : List Nat :=
  let b0 := cmd >>> 8 &&& 0xFF
  let b1 := cmd &&& 0xFF
  if cmd = I2C_START_MEASUREMENT then
    [b0, b1, START_MEASURE_FLOAT, 0x00,
     I2C_calc_CRC START_MEASURE_FLOAT 0x00]
  else if cmd = I2C_SET_AUTO_CLEANING_INTERVAL then
    let a0 := I2C_AUTO_CLEANING_INTERVAL >>> 8 &&& 0xFF
    let a1 := I2C_AUTO_CLEANING_INTERVAL &&& 0xFF
    let i3 := interval >>> 24 &&& 0xFF
    let i2 := interval >>> 16 &&& 0xFF
    let i1 := interval >>> 8 &&& 0xFF
    let i0 := interval &&& 0xFF
    [a0, a1, i3, i2, I2C_calc_CRC i3 i2, i1, i0, I2C_calc_CRC i1 i0]
  else
    [b0, b1]

/-- Outcome of the byte-parsing loop of SPS30::I2C_ReadToBuffer. -/
inductive LoopOut where
  | crcErr
  | earlyZero (out : List Nat)
  | finished (out : List Nat) (dangling : List Nat)
deriving DecidableEq

/-- The parsing loop of SPS30::I2C_ReadToBuffer: bytes are collected
three at a time into `data`; each completed triplet has its CRC checked
(mismatch aborts with a protocol error), its two data bytes are appended
to the receive buffer, and in zero-check mode an all-zero data word
returns ERR_OK immediately. `dangling` is the partial triplet left in
`data` when the input runs out. -/
def rtbLoop (chkZero : Bool) : List Nat → List Nat → List Nat → LoopOut
  | [], out, data => .finished out data
  | b :: rest, out, [d0, d1] =>
    if b ≠ I2C_calc_CRC d0 d1 then .crcErr
    else if chkZero && (d0 == 0) && (d1 == 0) then .earlyZero (out ++ [d0, d1])
    else rtbLoop chkZero rest (out ++ [d0, d1]) []
  | b :: rest, out, data => rtbLoop chkZero rest out (data ++ [b])

/-- SPS30::I2C_ReadToBuffer after a successful raw bus read of `raw`:
parse the triplets, then copy any dangling partial triplet through, fail
with ERR_PROTOCOL on an empty receive buffer, succeed when the length
matches `count` and fail with ERR_DATALENGTH otherwise. An early zero
word in zero-check mode returned ERR_OK before those checks. -/
def I2C_ReadToBuffer (count : Nat) (chkZero : Bool) (raw : List Nat) :
    Except Nat (List Nat) :=
  match rtbLoop chkZero raw [] [] with
  | .crcErr => .error ERR_PROTOCOL
  | .earlyZero out => .ok out
  | .finished out dangling =>
    let out2 := out ++ dangling
    if out2.length = 0 then .error ERR_PROTOCOL
    else if out2.length = count then .ok out2
    else .error ERR_DATALENGTH

/-- The raw byte stream of a list of data words: each word contributes
its two bytes followed by their CRC. -/
def tripletsRaw : List (Nat × Nat) → List Nat
  | [] => []
  | w :: ws => [w.1, w.2, I2C_calc_CRC w.1 w.2] ++ tripletsRaw ws

/-- The payload carried by a list of data words, in order. -/
def payloadOf : List (Nat × Nat) → List Nat
  | [] => []
  | w :: ws => [w.1, w.2] ++ payloadOf ws

theorem payloadOf_length (ws : List (Nat × Nat)) :
    (payloadOf ws).length = 2 * ws.length := by
  induction ws with
  | nil => rfl
  | cons w ws ih => simp [payloadOf, ih]; omega

/-- Running the parse loop over well-formed triplets whose data words
never hit the zero-word early exit consumes them all, appending their
payload to the receive buffer. -/
theorem rtbLoop_triplets (chkZero : Bool) (ws : List (Nat × Nat))
    (tail out : List Nat)
    (h : chkZero = true → ∀ w ∈ ws, ¬(w.1 = 0 ∧ w.2 = 0)) :
    rtbLoop chkZero (tripletsRaw ws ++ tail) out [] =
    rtbLoop chkZero tail (out ++ payloadOf ws) [] := by
  induction ws generalizing out with
  | nil => simp [tripletsRaw, payloadOf]
  | cons w ws ih =>
    have hw : ¬(chkZero && (w.1 == 0) && (w.2 == 0)) = true := by
      intro hz
      simp only [Bool.and_eq_true, beq_iff_eq] at hz
      exact h hz.1.1 w (by simp) ⟨hz.1.2, hz.2⟩
    simp only [tripletsRaw, List.cons_append, List.nil_append]
    rw [show rtbLoop chkZero (w.1 :: w.2 :: I2C_calc_CRC w.1 w.2 ::
          (tripletsRaw ws ++ tail)) out [] =
        rtbLoop chkZero (tripletsRaw ws ++ tail) (out ++ [w.1, w.2]) []
      from by
        simp only [rtbLoop, List.nil_append, List.singleton_append]
        rw [if_neg (by simp), if_neg (by simp [hw])]]
    rw [ih _ (fun hc wm hm => h hc wm (by simp [hm]))]
    simp [payloadOf]

/-- C5: in fixed-length mode, parsing `k` CRC-verified triplets yields
exactly the `2k` payload bytes in order; an empty result is a protocol
error, a result whose length differs from `count` is a data-length
error, a matching length succeeds; and any triplet whose third byte
differs from the CRC of its two data bytes aborts with ERR_PROTOCOL. -/
theorem C5_fixed_length_decode (count : Nat) (ws pre : List (Nat × Nat))
    (d0 d1 c : Nat) (rest : List Nat) (hc : c ≠ I2C_calc_CRC d0 d1) :
    (I2C_ReadToBuffer count false (tripletsRaw ws) =
      if ws.length = 0 then .error ERR_PROTOCOL
      else if 2 * ws.length = count then .ok (payloadOf ws)
      else .error ERR_DATALENGTH) ∧
    (payloadOf ws).length = 2 * ws.length ∧
    I2C_ReadToBuffer count false
      (tripletsRaw pre ++ (d0 :: d1 :: c :: rest)) = .error ERR_PROTOCOL := by
  refine ⟨?_, payloadOf_length ws, ?_⟩
  · have h1 := rtbLoop_triplets false ws [] [] (by simp)
    rw [List.append_nil] at h1
    have hlen := payloadOf_length ws
    unfold I2C_ReadToBuffer
    rw [h1]
    simp only [rtbLoop, List.nil_append, List.append_nil]
    by_cases h0 : ws.length = 0
    · have hw : ws = [] := List.length_eq_zero.mp h0
      subst hw
      simp [payloadOf]
    · have hpz : ¬((payloadOf ws).length = 0) := by omega
      rw [if_neg hpz, if_neg h0]
      by_cases hcnt : 2 * ws.length = count
      · have hpc : (payloadOf ws).length = count := by omega
        rw [if_pos hpc, if_pos hcnt]
      · have hpc : ¬((payloadOf ws).length = count) := by omega
        rw [if_neg hpc, if_neg hcnt]
  · have h1 := rtbLoop_triplets false pre (d0 :: d1 :: c :: rest) [] (by simp)
    unfold I2C_ReadToBuffer
    rw [h1]
    simp only [rtbLoop, List.nil_append, List.singleton_append]
    rw [if_pos hc]

/-- Witness for C5 on a concrete two-word input and a concrete
corrupted triplet. -/
theorem C5_witness :
    (0x60 : Nat) ≠ I2C_calc_CRC 0 2 ∧
    ((I2C_ReadToBuffer 4 false (tripletsRaw [(1, 2), (3, 4)]) =
       if ([(1, 2), (3, 4)] : List (Nat × Nat)).length = 0 then
         .error ERR_PROTOCOL
       else if 2 * ([(1, 2), (3, 4)] : List (Nat × Nat)).length = 4 then
         .ok (payloadOf [(1, 2), (3, 4)])
       else .error ERR_DATALENGTH) ∧
     (payloadOf [(1, 2), (3, 4)]).length =
       2 * ([(1, 2), (3, 4)] : List (Nat × Nat)).length ∧
     I2C_ReadToBuffer 4 false
       (tripletsRaw [(9, 9)] ++ (0 :: 2 :: 0x60 :: [])) =
       .error ERR_PROTOCOL) :=
  ⟨by decide, C5_fixed_length_decode 4 [(1, 2), (3, 4)] [(9, 9)] 0 2 0x60 []
    (by decide)⟩

/-- C9 (amended): in zero-check mode decoding stops with success the
moment a CRC-verified data word is 0x00 0x00, even if more bytes
follow, and irrespective of the expected count; but when no zero word
terminates the loop early the final length checks still apply, so a
nonzero-word input whose payload length differs from `count` fails
with ERR_DATALENGTH even in zero-check mode. -/
theorem C9_nul_terminated_decode (count : Nat) (pre : List (Nat × Nat))
    (rest : List Nat) (h : ∀ w ∈ pre, ¬(w.1 = 0 ∧ w.2 = 0)) :
    I2C_ReadToBuffer count true
      (tripletsRaw pre ++ ([0, 0, I2C_calc_CRC 0 0] ++ rest)) =
      .ok (payloadOf pre ++ [0, 0]) ∧
    (pre.length ≠ 0 → 2 * pre.length ≠ count →
      I2C_ReadToBuffer count true (tripletsRaw pre) =
        .error ERR_DATALENGTH) := by
  constructor
  · have h1 := rtbLoop_triplets true pre ([0, 0, I2C_calc_CRC 0 0] ++ rest)
      [] (fun _ => h)
    unfold I2C_ReadToBuffer
    rw [h1]
    simp [rtbLoop]
  · intro hz hcnt
    have h1 := rtbLoop_triplets true pre [] [] (fun _ => h)
    rw [List.append_nil] at h1
    have hlen := payloadOf_length pre
    unfold I2C_ReadToBuffer
    rw [h1]
    simp only [rtbLoop, List.nil_append, List.append_nil]
    have hpz : ¬((payloadOf pre).length = 0) := by omega
    have hpc : ¬((payloadOf pre).length = count) := by omega
    rw [if_neg hpz, if_neg hpc]

/-- Witness for C9 on a concrete serial-number-style response. -/
theorem C9_witness :
    (∀ w ∈ ([(0x41, 0x42)] : List (Nat × Nat)), ¬(w.1 = 0 ∧ w.2 = 0)) ∧
    (I2C_ReadToBuffer 32 true
        (tripletsRaw [(0x41, 0x42)] ++ ([0, 0, I2C_calc_CRC 0 0] ++ [7, 7, 7])) =
        .ok (payloadOf [(0x41, 0x42)] ++ [0, 0]) ∧
     (([(0x41, 0x42)] : List (Nat × Nat)).length ≠ 0 →
      2 * ([(0x41, 0x42)] : List (Nat × Nat)).length ≠ 32 →
      I2C_ReadToBuffer 32 true (tripletsRaw [(0x41, 0x42)]) =
        .error ERR_DATALENGTH)) :=
  ⟨by decide, C9_nul_terminated_decode 32 [(0x41, 0x42)] [7, 7, 7] (by decide)⟩

/-- Counterexample to C9 as stated: with zero-check mode ON (count 3,
so the transport read length is 3/2*3 = 3 bytes), a single valid
nonzero triplet decodes to 2 payload bytes, and the final
length-equals-count check still runs and fails with ERR_DATALENGTH —
so the data-length check is not restricted to fixed-length mode. -/
theorem C9_counterexample :
    I2C_ReadToBuffer 3 true [1, 0, I2C_calc_CRC 1 0] =
      .error ERR_DATALENGTH := by rfl

/-- Frame stated by claim C4, built from the words of the spec
(refinement comparison only, not from the source): the normal
2-opcode-byte header of the set command, then the interval sub-opcode
re-encoded as the first payload word, then the two CRC-protected
interval words. -/
def claimedSetIntervalFrame (interval : Nat) : List Nat :=
  [I2C_SET_AUTO_CLEANING_INTERVAL >>> 8 &&& 0xFF,
   I2C_SET_AUTO_CLEANING_INTERVAL &&& 0xFF,
   I2C_AUTO_CLEANING_INTERVAL >>> 8 &&& 0xFF,
   I2C_AUTO_CLEANING_INTERVAL &&& 0xFF,
   interval >>> 24 &&& 0xFF, interval >>> 16 &&& 0xFF,
   I2C_calc_CRC (interval >>> 24 &&& 0xFF) (interval >>> 16 &&& 0xFF),
   interval >>> 8 &&& 0xFF, interval &&& 0xFF,
   I2C_calc_CRC (interval >>> 8 &&& 0xFF) (interval &&& 0xFF)]

/-- Counterexample to C4 as stated: at interval 0 the encoder does not
produce the claimed header-then-re-encoded-sub-opcode frame; the
8-byte frame it produces starts directly with the re-encoded read
sub-opcode 0x8004, which replaces the 0x8005 set-command header
instead of following it. -/
theorem C4_counterexample :
    I2C_fill_buffer I2C_SET_AUTO_CLEANING_INTERVAL 0 ≠
      claimedSetIntervalFrame 0 ∧
    I2C_fill_buffer I2C_SET_AUTO_CLEANING_INTERVAL 0 =
      [0x80, 0x04, 0, 0, I2C_calc_CRC 0 0, 0, 0, I2C_calc_CRC 0 0] := by
  decide

/-- C4 (amended): for every interval, the set-auto-clean-interval frame
is exactly 8 bytes: the interval sub-opcode 0x8004 re-encoded in place
of the set-command opcode as the 2-byte header, followed by the high
interval word with its CRC-8 byte and the low interval word with its
CRC-8 byte. -/
theorem C4_set_interval_frame (interval : Nat) :
    I2C_fill_buffer I2C_SET_AUTO_CLEANING_INTERVAL interval =
      [0x80, 0x04] ++
      [interval >>> 24 &&& 0xFF, interval >>> 16 &&& 0xFF,
       I2C_calc_CRC (interval >>> 24 &&& 0xFF) (interval >>> 16 &&& 0xFF)] ++
      [interval >>> 8 &&& 0xFF, interval &&& 0xFF,
       I2C_calc_CRC (interval >>> 8 &&& 0xFF) (interval &&& 0xFF)] := by
  simp [I2C_fill_buffer, I2C_SET_AUTO_CLEANING_INTERVAL,
    I2C_AUTO_CLEANING_INTERVAL, I2C_START_MEASUREMENT]
  decide

/-- The data-ready polling loop of SPS30::GetValues. The C code is a
do/while with a uint8 counter: `do { if ready break; delay; } while
(loop++ < 3);` — the body runs with counter values 0,1,2,3 (four
attempts); breaking on readiness leaves the counter at its current
value, while exhaustion leaves it at 4 because the final post-increment
still runs. The first component records whether readiness was seen,
the second the final counter value. -/
def gvLoopAux (ready : Nat → Bool) : Nat → Nat → Bool × Nat
  | 0, loop => if ready loop then (true, loop) else (false, loop + 1)
  | n + 1, loop => if ready loop then (true, loop) else gvLoopAux ready n (loop + 1)

/-- The polling loop started with counter 0 and three more permitted
continuation tests, as in GetValues. -/
def gvLoop (ready : Nat → Bool) : Bool × Nat := gvLoopAux ready 3 0

/-- SPS30::GetValues return path. `started`/`startOk` model the
session flag and the implicit start; `ready n` is the data-ready flag
observed on poll attempt `n` (0-based); `readRet` is the outcome of the
fixed 40-byte measured-value read `I2C_SetPointer_Read(40)`. After the
loop the code tests `loop == 3` for the timeout and then tests `ret`;
when the loop exhausts (counter 4) `ret` was never assigned, which is
undefined behaviour in the C source — modelled as `none`. -/
def GetValues (started startOk : Bool) (ready : Nat → Bool)
    (readRet : Nat) : Option Nat :=
  if started = false && startOk = false then some ERR_CMDSTATE
  else
    let p := gvLoop ready
    if p.2 = 3 then some ERR_TIMEOUT
    else if p.1 then
      (if readRet ≠ ERR_OK then some ERR_PROTOCOL else some ERR_OK)
    else none

/-- C1 (code bug, off-by-one): when data-ready first appears on the
4th and final poll attempt the counter equals 3 at the break, so
GetValues returns ERR_TIMEOUT even though the 40-byte read was
performed and succeeded; when readiness never appears the loop exits
with counter 4, the `loop == 3` timeout test is skipped, and an
uninitialised `ret` is evaluated (undefined behaviour, modelled as
`none`) — so the claimed Timeout is not returned there either. On
attempts 0-2 readiness behaves as the claim states. -/
theorem C1_getvalues_poll_code_bug :
    GetValues true true (fun n => n == 3) ERR_OK = some ERR_TIMEOUT ∧
    GetValues true true (fun _ => false) ERR_OK = none ∧
    GetValues true true (fun n => n == 2) ERR_OK = some ERR_OK ∧
    GetValues true true (fun _ => true) ERR_OK = some ERR_OK ∧
    GetValues true true (fun _ => true) ERR_PROTOCOL = some ERR_PROTOCOL := by
  decide

/-- Session state of the SPS30 object (the fields of class SPS30 that
the protocol operations read and write). -/
structure SPSState where
  started : Bool
  sleep : Bool
  WasStarted : Bool
  FW_Major : Nat
  FW_Minor : Nat
deriving DecidableEq

/-- Observable bus/transport events, in order of occurrence: a frame
written by I2C_SetPointer (with its 500 microsecond settle folded into
the write), a raw read of `n` data bytes, closing and reopening the
bus, and an explicit millisecond delay. -/
inductive Ev where
  | wr (frame : List Nat)
  | rd (n : Nat)
  | closeB
  | openB
  | delayMs (ms : Nat)
deriving DecidableEq

/-- SPS30::Instruct: fan cleaning demanded while not measuring fails
locally without any bus access; otherwise the frame for `ty` is built
and written (`ok` is the transport outcome of I2C_SetPointer), and on
success the started flag and settle delays are applied for
start/stop/reset. -/
def Instruct (st : SPSState) (ok : Bool) (ty : Nat) :
    Bool × SPSState × List Ev :=
  if ty = I2C_START_FAN_CLEANING ∧ st.started = false then (false, st, [])
  else
    let f := I2C_fill_buffer ty 0
    if ok then
      if ty = I2C_START_MEASUREMENT then
        (true, { st with started := true }, [Ev.wr f, Ev.delayMs 1000])
      else if ty = I2C_STOP_MEASUREMENT then
        (true, { st with started := false }, [Ev.wr f])
      else if ty = I2C_RESET then
        (true, { st with started := false }, [Ev.wr f, Ev.delayMs 2000])
      else (true, st, [Ev.wr f])
    else (false, st, [Ev.wr f])

/-- SPS30::probe via GetVersion: one version-read transaction (frame
write plus 2-byte read); `pr` is the oracle for the version the device
answers with, `none` meaning the read failed. On success the firmware
level is cached in the session state. -/
def probe (st : SPSState) (pr : Option (Nat × Nat)) :
    Bool × SPSState × List Ev :=
  let t := [Ev.wr (I2C_fill_buffer I2C_READ_VERSION 0), Ev.rd 2]
  match pr with
  | some vm => (true, { st with FW_Major := vm.1, FW_Minor := vm.2 }, t)
  | none => (false, st, t)

/-- SPS30::FWCheck parametrised by the compile-time INCLUDE_FWCHECK
switch: disabled means unconditional success with no bus access;
otherwise an unknown firmware level (major 0) triggers one probe, and
the request fails when the requested major exceeds the cached major or
the requested minor exceeds the cached minor. -/
def FWCheckCfg (cfg : Bool) (st : SPSState) (pr : Option (Nat × Nat))
    (major minor : Nat) : Bool × SPSState × List Ev :=
  if cfg = false then (true, st, [])
  else if st.FW_Major = 0 then
    match probe st pr with
    | (false, st1, t) => (false, st1, t)
    | (true, st1, t) =>
      if major > st1.FW_Major then (false, st1, t)
      else if minor > st1.FW_Minor then (false, st1, t)
      else (true, st1, t)
  else
    if major > st.FW_Major then (false, st, [])
    else if minor > st.FW_Minor then (false, st, [])
    else (true, st, [])

/-- SPS30::FWCheck as compiled (INCLUDE_FWCHECK is 1 in sps30lib.h). -/
def FWCheck (st : SPSState) (pr : Option (Nat × Nat)) (major minor : Nat) :
    Bool × SPSState × List Ev :=
  FWCheckCfg INCLUDE_FWCHECK st pr major minor

/-- SPS30::SetOpMode. The firmware gate FWCheck(2,0) runs first; sleep
while already sleeping and wake while not sleeping are no-op successes.
Entering sleep from Measuring first issues stop (failure aborts with
ERR_PROTOCOL before WasStarted is set), records WasStarted, then sends
the sleep instruction. Waking sends the wake instruction twice with
both transport outcomes ignored (10 ms between them, 100 ms after),
clears the sleeping flag, and reissues start only when WasStarted.
The five booleans are the transport outcomes of the successive
I2C_SetPointer calls that may occur. -/
def SetOpMode (st : SPSState) (pr : Option (Nat × Nat))
    (stopOk sleepOk wake1Ok wake2Ok startOk : Bool) (mode : Nat) :
    Nat × SPSState × List Ev :=
  match FWCheckCfg INCLUDE_FWCHECK st pr 2 0 with
  | (false, st1, t0) => (ERR_FIRMWARE, st1, t0)
  | (true, st1, t0) =>
    if mode = I2C_SLEEP then
      if st1.sleep then (ERR_OK, st1, t0)
      else if st1.started then
        match Instruct st1 stopOk I2C_STOP_MEASUREMENT with
        | (false, st2, t1) => (ERR_PROTOCOL, st2, t0 ++ t1)
        | (true, st2, t1) =>
          let st3 := { st2 with WasStarted := true }
          match Instruct st3 sleepOk I2C_SLEEP with
          | (false, st4, t2) => (ERR_PROTOCOL, st4, t0 ++ t1 ++ t2)
          | (true, st4, t2) =>
            (ERR_OK, { st4 with sleep := true }, t0 ++ t1 ++ t2)
      else
        let st3 := { st1 with WasStarted := false }
        match Instruct st3 sleepOk I2C_SLEEP with
        | (false, st4, t2) => (ERR_PROTOCOL, st4, t0 ++ t2)
        | (true, st4, t2) =>
          (ERR_OK, { st4 with sleep := true }, t0 ++ t2)
    else if mode = I2C_WAKEUP then
      if st1.sleep = false then (ERR_OK, st1, t0)
      else
        let r1 := Instruct st1 wake1Ok I2C_WAKEUP
        let r2 := Instruct r1.2.1 wake2Ok I2C_WAKEUP
        let st4 := { r2.2.1 with sleep := false }
        let tW := t0 ++ r1.2.2 ++ [Ev.delayMs 10] ++ r2.2.2 ++ [Ev.delayMs 100]
        if st4.WasStarted then
          match Instruct st4 startOk I2C_START_MEASUREMENT with
          | (false, st5, t3) => (ERR_PROTOCOL, st5, tW ++ t3)
          | (true, st5, t3) => (ERR_OK, st5, tW ++ t3)
        else (ERR_OK, st4, tW)
    else (ERR_PARAMETER, st1, t0)

/-- SPS30::SetAutoCleanInt: write the dual-CRC interval frame; on
transport success remember whether the session was measuring, close
the bus, wait 1000 ms, reopen it, issue reset and, only if it had been
measuring, reissue start; any failure yields ERR_PROTOCOL. `writeOk`,
`resetOk` and `startOk` are the transport outcomes of the three
possible I2C_SetPointer calls. -/
def SetAutoCleanInt (st : SPSState) (writeOk resetOk startOk : Bool)
    (val : Nat) : Nat × SPSState × List Ev :=
  let f := I2C_fill_buffer I2C_SET_AUTO_CLEANING_INTERVAL val
  if writeOk then
    let save := st.started
    let pre := [Ev.wr f, Ev.closeB, Ev.delayMs 1000, Ev.openB]
    match Instruct st resetOk I2C_RESET with
    | (false, st1, t1) => (ERR_PROTOCOL, st1, pre ++ t1)
    | (true, st1, t1) =>
      if save then
        match Instruct st1 startOk I2C_START_MEASUREMENT with
        | (false, st2, t2) => (ERR_PROTOCOL, st2, pre ++ t1 ++ t2)
        | (true, st2, t2) => (ERR_OK, st2, pre ++ t1 ++ t2)
      else (ERR_OK, st1, pre ++ t1)
  else (ERR_PROTOCOL, st, [Ev.wr f])

/-- The version-probe transaction trace. -/
def probeTrace : List Ev := [Ev.wr (I2C_fill_buffer I2C_READ_VERSION 0), Ev.rd 2]

theorem if_gt_gt_eq_decide {α : Type} (M m major minor : Nat) (a : α) :
    (if major > M then ((false : Bool), a)
     else if minor > m then (false, a) else (true, a)) =
    (decide (major ≤ M ∧ minor ≤ m), a) := by
  by_cases h1 : major > M
  · rw [if_pos h1]
    have hd : decide (major ≤ M ∧ minor ≤ m) = false := by
      simp only [decide_eq_false_iff_not]
      omega
    rw [hd]
  · by_cases h2 : minor > m
    · rw [if_neg h1, if_pos h2]
      have hd : decide (major ≤ M ∧ minor ≤ m) = false := by
        simp only [decide_eq_false_iff_not]
        omega
      rw [hd]
    · rw [if_neg h1, if_neg h2]
      have hd : decide (major ≤ M ∧ minor ≤ m) = true := by
        simp only [decide_eq_true_eq]
        omega
      rw [hd]

/-- Counterexample to C3 as stated: with cached firmware 3.0 the claim
requires FWCheck(2,5) to succeed (cached major 3 strictly greater than
requested major 2, "regardless of minor"), but the code compares the
minor levels unconditionally and returns false. -/
theorem C3_counterexample :
    (FWCheckCfg true ⟨false, false, false, 3, 0⟩ none 2 5).1 = false ∧
    2 < 3 := by decide

/-- C3 (amended): FWCheck succeeds unconditionally with no bus access
when capability checking is statically disabled; with a cached level it
sends nothing and fails exactly when the requested major exceeds the
cached major OR the requested minor exceeds the cached minor (the
comparison is componentwise, not lexicographic); with an unknown level
it performs exactly one version probe, caches the answer and applies
the same componentwise test, and a later call with the cached nonzero
major performs no further probe. -/
theorem C3_fwcheck_capability_gate (st : SPSState) (pr : Option (Nat × Nat))
    (M m major minor : Nat) (hM : st.FW_Major ≠ 0) (hM2 : M ≠ 0) :
    FWCheckCfg false st pr major minor = (true, st, []) ∧
    FWCheckCfg true st pr major minor =
      (decide (major ≤ st.FW_Major ∧ minor ≤ st.FW_Minor), st, []) ∧
    FWCheckCfg true { st with FW_Major := 0 } (some (M, m)) major minor =
      (decide (major ≤ M ∧ minor ≤ m),
       { st with FW_Major := M, FW_Minor := m }, probeTrace) ∧
    FWCheckCfg true { st with FW_Major := 0 } none major minor =
      (false, { st with FW_Major := 0 }, probeTrace) ∧
    FWCheckCfg true { st with FW_Major := M, FW_Minor := m } pr major minor =
      (decide (major ≤ M ∧ minor ≤ m),
       { st with FW_Major := M, FW_Minor := m }, []) := by
  refine ⟨rfl, ?_, ?_, ?_, ?_⟩
  · unfold FWCheckCfg
    rw [if_neg (by simp), if_neg hM]
    exact if_gt_gt_eq_decide st.FW_Major st.FW_Minor major minor (st, [])
  · unfold FWCheckCfg
    rw [if_neg (by simp), if_pos rfl]
    show (if major > M then _ else if minor > m then _ else _) = _
    exact if_gt_gt_eq_decide M m major minor
      ({ st with FW_Major := M, FW_Minor := m }, probeTrace)
  · unfold FWCheckCfg
    rw [if_neg (by simp), if_pos rfl]
    rfl
  · unfold FWCheckCfg
    rw [if_neg (by simp), if_neg hM2]
    exact if_gt_gt_eq_decide M m major minor
      ({ st with FW_Major := M, FW_Minor := m }, [])

/-- Witness for C3 at the spec's own scenario: cached firmware 2.1,
requests (2,2) and (2,0); and an unknown-firmware probe that answers
2.2. -/
theorem C3_witness :
    ((⟨true, false, false, 2, 1⟩ : SPSState).FW_Major ≠ 0 ∧ (2 : Nat) ≠ 0) ∧
    (FWCheckCfg false ⟨true, false, false, 2, 1⟩ none 2 2 =
       (true, ⟨true, false, false, 2, 1⟩, []) ∧
     FWCheckCfg true ⟨true, false, false, 2, 1⟩ none 2 2 =
       (decide ((2 : Nat) ≤ 2 ∧ (2 : Nat) ≤ 1), ⟨true, false, false, 2, 1⟩, []) ∧
     FWCheckCfg true { (⟨true, false, false, 2, 1⟩ : SPSState) with
         FW_Major := 0 } (some (2, 2)) 2 2 =
       (decide ((2 : Nat) ≤ 2 ∧ (2 : Nat) ≤ 2),
        { (⟨true, false, false, 2, 1⟩ : SPSState) with
          FW_Major := 2, FW_Minor := 2 }, probeTrace) ∧
     FWCheckCfg true { (⟨true, false, false, 2, 1⟩ : SPSState) with
         FW_Major := 0 } none 2 2 =
       (false, { (⟨true, false, false, 2, 1⟩ : SPSState) with
         FW_Major := 0 }, probeTrace) ∧
     FWCheckCfg true { (⟨true, false, false, 2, 1⟩ : SPSState) with
         FW_Major := 2, FW_Minor := 2 } none 2 2 =
       (decide ((2 : Nat) ≤ 2 ∧ (2 : Nat) ≤ 2),
        { (⟨true, false, false, 2, 1⟩ : SPSState) with
          FW_Major := 2, FW_Minor := 2 }, [])) :=
  ⟨⟨by decide, by decide⟩,
   C3_fwcheck_capability_gate ⟨true, false, false, 2, 1⟩ none 2 2 2 2
     (by decide) (by decide)⟩

/-- C6: a set-auto-clean-interval call whose initial write succeeds
performs, in order: the interval-frame write, one transport close, the
fixed 1000 ms settle delay, one transport reopen, one reset
instruction, and — only if the session was measuring when the write
happened — one start instruction (no start when it was idle); a failed
write aborts with ERR_PROTOCOL before any close/reopen, a failed reset
yields ERR_PROTOCOL, and ERR_OK is returned only after the full
sequence. -/
theorem C6_set_autoclean_sequence (st : SPSState) (val : Nat) :
    (SetAutoCleanInt st true true true val).1 = ERR_OK ∧
    (SetAutoCleanInt st true true true val).2.2 =
      [Ev.wr (I2C_fill_buffer I2C_SET_AUTO_CLEANING_INTERVAL val),
       Ev.closeB, Ev.delayMs 1000, Ev.openB,
       Ev.wr (I2C_fill_buffer I2C_RESET 0), Ev.delayMs 2000] ++
      (if st.started then
        [Ev.wr (I2C_fill_buffer I2C_START_MEASUREMENT 0), Ev.delayMs 1000]
       else []) ∧
    (∀ r s : Bool, (SetAutoCleanInt st false r s val).1 = ERR_PROTOCOL ∧
      (SetAutoCleanInt st false r s val).2.2 =
        [Ev.wr (I2C_fill_buffer I2C_SET_AUTO_CLEANING_INTERVAL val)]) ∧
    (∀ s : Bool, (SetAutoCleanInt st true false s val).1 = ERR_PROTOCOL) := by
  by_cases hs : st.started = true
  · refine ⟨?_, ?_, ?_, ?_⟩ <;>
      simp [SetAutoCleanInt, Instruct, hs, I2C_RESET,
        I2C_START_FAN_CLEANING, I2C_START_MEASUREMENT, I2C_STOP_MEASUREMENT]
  · have hs2 : st.started = false := by
      cases h : st.started
      · rfl
      · exact absurd h hs
    refine ⟨?_, ?_, ?_, ?_⟩ <;>
      simp [SetAutoCleanInt, Instruct, hs2, I2C_RESET,
        I2C_START_FAN_CLEANING, I2C_START_MEASUREMENT, I2C_STOP_MEASUREMENT]

/-- Count of stop-equivalent transitions in a trace: writes of the
stop frame or of the reset frame. -/
def countStopEquiv (t : List Ev) : Nat :=
  t.countP fun e =>
    decide (e = Ev.wr (I2C_fill_buffer I2C_STOP_MEASUREMENT 0)) ||
    decide (e = Ev.wr (I2C_fill_buffer I2C_RESET 0))

/-- C7: the sleep/wake round trip from Measuring (cached firmware 2.0,
any prior WasStarted value). Sleep returns ERR_OK after exactly one
stop write followed by the sleep write, leaving the session stopped,
sleeping, and marked to resume. Wake then writes the wake frame twice
— irrespective of either wake transport acknowledgement `b1`, `b2` —
with the 10 ms and 100 ms delays, and only after both sends writes the
start frame; it returns ERR_OK with the session measuring and not
sleeping, and the combined trace contains exactly one stop-equivalent
transition. -/
theorem C7_sleep_wake_roundtrip (w0 b1 b2 : Bool) :
    (SetOpMode ⟨true, false, w0, 2, 0⟩ none true true true true true
        I2C_SLEEP).1 = ERR_OK ∧
    (SetOpMode ⟨true, false, w0, 2, 0⟩ none true true true true true
        I2C_SLEEP).2.1 = ⟨false, true, true, 2, 0⟩ ∧
    (SetOpMode ⟨true, false, w0, 2, 0⟩ none true true true true true
        I2C_SLEEP).2.2 =
      [Ev.wr (I2C_fill_buffer I2C_STOP_MEASUREMENT 0),
       Ev.wr (I2C_fill_buffer I2C_SLEEP 0)] ∧
    (SetOpMode ⟨false, true, true, 2, 0⟩ none true true b1 b2 true
        I2C_WAKEUP).1 = ERR_OK ∧
    (SetOpMode ⟨false, true, true, 2, 0⟩ none true true b1 b2 true
        I2C_WAKEUP).2.1 = ⟨true, false, true, 2, 0⟩ ∧
    (SetOpMode ⟨false, true, true, 2, 0⟩ none true true b1 b2 true
        I2C_WAKEUP).2.2 =
      [Ev.wr (I2C_fill_buffer I2C_WAKEUP 0), Ev.delayMs 10,
       Ev.wr (I2C_fill_buffer I2C_WAKEUP 0), Ev.delayMs 100,
       Ev.wr (I2C_fill_buffer I2C_START_MEASUREMENT 0), Ev.delayMs 1000] ∧
    countStopEquiv
      ([Ev.wr (I2C_fill_buffer I2C_STOP_MEASUREMENT 0),
        Ev.wr (I2C_fill_buffer I2C_SLEEP 0)] ++
       [Ev.wr (I2C_fill_buffer I2C_WAKEUP 0), Ev.delayMs 10,
        Ev.wr (I2C_fill_buffer I2C_WAKEUP 0), Ev.delayMs 100,
        Ev.wr (I2C_fill_buffer I2C_START_MEASUREMENT 0),
        Ev.delayMs 1000]) = 1 := by
  cases w0 <;> cases b1 <;> cases b2 <;> decide

/-- The ten measurement fields of struct sps_values. The field values
themselves are opaque to the cache logic, so they are modelled as
natural numbers. -/
structure sps_values where
  MassPM1 : Nat
  MassPM2 : Nat
  MassPM4 : Nat
  MassPM10 : Nat
  NumPM0 : Nat
  NumPM1 : Nat
  NumPM2 : Nat
  NumPM4 : Nat
  NumPM10 : Nat
  PartSize : Nat
deriving DecidableEq

/-- The switch at the end of Get_Single_Value: field selectors are
v_MassPM1 = 1 .. v_PartSize = 10; any other selector reaches the final
`return 0`. -/
def fieldOf (v : sps_values) : Nat → Nat
  | 1 => v.MassPM1
  | 2 => v.MassPM2
  | 3 => v.MassPM4
  | 4 => v.MassPM10
  | 5 => v.NumPM0
  | 6 => v.NumPM1
  | 7 => v.NumPM2
  | 8 => v.NumPM4
  | 9 => v.NumPM10
  | 10 => v.PartSize
  | _ => 0

/-- State read by Get_Single_Value: the Reported cache-indicator array
(11 uint8 slots, modelled as a predicate on the selector) together
with the function-local static sample `v` that GetValues refreshes. -/
structure CacheState where
  Reported : Nat → Bool
  cache : sps_values

/-- SPS30::Get_Single_Value with the embedded GetValues call as an
oracle: `newSample` is the sample a refresh would deliver (`none` for
a failed GetValues). Result: the returned value (`none` is the -1
error), the successor state, and the number of refreshes performed.
A selector above v_PartSize fails immediately; a flagged selector
refreshes, clears every Reported slot (only on refresh success) and
then marks the selector; an unflagged selector is served from the
current cached sample with no refresh. -/
def Get_Single_Value (cs : CacheState) (newSample : Option sps_values)
    (value : Nat) : Option Nat × CacheState × Nat :=
  if value > 10 then (none, cs, 0)
  else if cs.Reported value then
    match newSample with
    | none => (none, cs, 1)
    | some v =>
      (some (fieldOf v value),
       { Reported := fun k => k == value, cache := v }, 1)
  else
    (some (fieldOf cs.cache value),
     { Reported := fun k => k == value || cs.Reported k, cache := cs.cache },
     0)

/-- The state set up by the SPS30 constructor: memset fills all 11
Reported slots with 1, and the function-local static sample is
zero-initialised. -/
def SPS30_mk : CacheState :=
  { Reported := fun _ => true, cache := ⟨0, 0, 0, 0, 0, 0, 0, 0, 0, 0⟩ }

/-- C8: reading a flagged field refreshes exactly once, clears all
Reported flags, marks only that field, and returns the fresh sample's
value; a subsequent read of a different (hence unflagged) field is
served from that same sample with no refresh and without consulting
the oracle; asking the first field again afterwards finds it flagged
and triggers a new refresh, whose sample it returns. -/
theorem C8_single_value_cache (cs : CacheState) (v v2 v3 : sps_values)
    (i j : Nat) (hi : i ≤ 10) (hj : j ≤ 10)
    (hrep : cs.Reported i = true) (hne : j ≠ i) :
    (Get_Single_Value cs (some v) i).1 = some (fieldOf v i) ∧
    (Get_Single_Value cs (some v) i).2.2 = 1 ∧
    (∀ k, (Get_Single_Value cs (some v) i).2.1.Reported k = (k == i)) ∧
    (Get_Single_Value (Get_Single_Value cs (some v) i).2.1 (some v2) j).1 =
      some (fieldOf v j) ∧
    (Get_Single_Value (Get_Single_Value cs (some v) i).2.1 (some v2) j).2.2 =
      0 ∧
    (Get_Single_Value
      (Get_Single_Value (Get_Single_Value cs (some v) i).2.1 (some v2) j).2.1
      (some v3) i).1 = some (fieldOf v3 i) ∧
    (Get_Single_Value
      (Get_Single_Value (Get_Single_Value cs (some v) i).2.1 (some v2) j).2.1
      (some v3) i).2.2 = 1 := by
  have hno : ¬(i > 10) := by omega
  have hno2 : ¬(j > 10) := by omega
  have hji : (j == i) = false := by
    simp only [beq_eq_false_iff_ne, ne_eq]
    exact hne
  have hii : (i == i) = true := by simp
  have hjj : (j == j) = true := by simp
  refine ⟨?_, ?_, ?_, ?_, ?_, ?_, ?_⟩ <;>
    simp [Get_Single_Value, hno, hno2, hrep, hji, hii, hjj]

/-- Witness for C8 at the spec's scenario: MassPM1 then MassPM2 then
MassPM1 again, from a freshly constructed session. -/
theorem C8_witness :
    ((1 : Nat) ≤ 10 ∧ (2 : Nat) ≤ 10 ∧ SPS30_mk.Reported 1 = true ∧
      (2 : Nat) ≠ 1) ∧
    ((Get_Single_Value SPS30_mk
        (some ⟨11, 12, 13, 14, 15, 16, 17, 18, 19, 20⟩) 1).1 =
      some (fieldOf ⟨11, 12, 13, 14, 15, 16, 17, 18, 19, 20⟩ 1) ∧
     (Get_Single_Value SPS30_mk
        (some ⟨11, 12, 13, 14, 15, 16, 17, 18, 19, 20⟩) 1).2.2 = 1 ∧
     (∀ k, (Get_Single_Value SPS30_mk
        (some ⟨11, 12, 13, 14, 15, 16, 17, 18, 19, 20⟩) 1).2.1.Reported k =
        (k == 1)) ∧
     (Get_Single_Value (Get_Single_Value SPS30_mk
        (some ⟨11, 12, 13, 14, 15, 16, 17, 18, 19, 20⟩) 1).2.1
        (some ⟨21, 22, 23, 24, 25, 26, 27, 28, 29, 30⟩) 2).1 =
      some (fieldOf ⟨11, 12, 13, 14, 15, 16, 17, 18, 19, 20⟩ 2) ∧
     (Get_Single_Value (Get_Single_Value SPS30_mk
        (some ⟨11, 12, 13, 14, 15, 16, 17, 18, 19, 20⟩) 1).2.1
        (some ⟨21, 22, 23, 24, 25, 26, 27, 28, 29, 30⟩) 2).2.2 = 0 ∧
     (Get_Single_Value (Get_Single_Value (Get_Single_Value SPS30_mk
        (some ⟨11, 12, 13, 14, 15, 16, 17, 18, 19, 20⟩) 1).2.1
        (some ⟨21, 22, 23, 24, 25, 26, 27, 28, 29, 30⟩) 2).2.1
        (some ⟨31, 32, 33, 34, 35, 36, 37, 38, 39, 40⟩) 1).1 =
      some (fieldOf ⟨31, 32, 33, 34, 35, 36, 37, 38, 39, 40⟩ 1) ∧
     (Get_Single_Value (Get_Single_Value (Get_Single_Value SPS30_mk
        (some ⟨11, 12, 13, 14, 15, 16, 17, 18, 19, 20⟩) 1).2.1
        (some ⟨21, 22, 23, 24, 25, 26, 27, 28, 29, 30⟩) 2).2.1
        (some ⟨31, 32, 33, 34, 35, 36, 37, 38, 39, 40⟩) 1).2.2 = 1) :=
  ⟨⟨by decide, by decide, by decide, by decide⟩,
   C8_single_value_cache SPS30_mk ⟨11, 12, 13, 14, 15, 16, 17, 18, 19, 20⟩
     ⟨21, 22, 23, 24, 25, 26, 27, 28, 29, 30⟩
     ⟨31, 32, 33, 34, 35, 36, 37, 38, 39, 40⟩ 1 2
     (by decide) (by decide) (by decide) (by decide)⟩

/-- C10: immediately after construction every Reported slot (selectors
0 through 10) is flagged, so the very first single-value read of any
field performs a full refresh and returns the freshly read sample's
value — and if that first refresh fails the call returns the error
value rather than anything from the uninitialised cache. -/
theorem C10_constructor_marks_reported (i : Nat) (v : sps_values)
    (hi : i ≤ 10) :
    SPS30_mk.Reported i = true ∧
    (Get_Single_Value SPS30_mk (some v) i).2.2 = 1 ∧
    (Get_Single_Value SPS30_mk (some v) i).1 = some (fieldOf v i) ∧
    (Get_Single_Value SPS30_mk none i).1 = none := by
  have hno : ¬(i > 10) := by omega
  refine ⟨rfl, ?_, ?_, ?_⟩ <;> simp [Get_Single_Value, hno, SPS30_mk]

/-- Witness for C10 at the first mass-concentration field. -/
theorem C10_witness :
    (1 : Nat) ≤ 10 ∧
    (SPS30_mk.Reported 1 = true ∧
     (Get_Single_Value SPS30_mk
        (some ⟨11, 12, 13, 14, 15, 16, 17, 18, 19, 20⟩) 1).2.2 = 1 ∧
     (Get_Single_Value SPS30_mk
        (some ⟨11, 12, 13, 14, 15, 16, 17, 18, 19, 20⟩) 1).1 =
       some (fieldOf ⟨11, 12, 13, 14, 15, 16, 17, 18, 19, 20⟩ 1) ∧
     (Get_Single_Value SPS30_mk none 1).1 = none) :=
  ⟨by decide,
   C10_constructor_marks_reported 1 ⟨11, 12, 13, 14, 15, 16, 17, 18, 19, 20⟩
     (by decide)⟩

end SPS30
